import Mathlib

/-!
Verification of the Context2D canvas command protocol client
(packages/py/context2d/__init__.py).

The Python module is shallowly embedded as follows.

* Python numbers (floats and ints flowing through the same variables) are
  modelled as `ℚ`; Python's numeric `==` between ints and floats is exact
  rational equality, which `ℚ` reproduces.
* `bytes` values are `List Nat`, every element < 256.
* `int.to_bytes(n)` (big-endian, unsigned, the defaults the source relies on)
  is `to_bytes?`, returning `Except Err _` because Python raises
  `OverflowError` for a negative value or one that does not fit.
* `round` is `pyRound`: Python's round-half-to-even on exact rationals,
  computed from the numerator and denominator.
* `struct.pack("f", x)` serialises an IEEE-754 binary32 float.  No claim
  depends on the bit pattern of a float, so the 4-byte float encoder is kept
  as an explicit function parameter `pf : ℚ → List Nat` of the operations
  that use it; every theorem about those operations holds for an arbitrary
  encoder.  (`struct.pack("f", _)` is total on every magnitude below the
  float32 maximum, in particular on all gradient offsets in `[0, 1]`.)
* Exceptions are the `Err` type; raising is returning `Except.error`.
* A dispatched frame is a `Frame` (opcode, surface id, payload); the byte
  stream written by `Context2D.__dispatch` for one frame is `Frame.wire`.
* The class-level surface counter `Context2D.__next_id` is threaded
  explicitly through `newContext`.
-/

/-- Big-endian base-256 digits of `v`, `n` bytes wide (the byte layout of
Python's `int.to_bytes(n)` once the range check has passed). -/
def toBytesBE : Nat → Nat → List Nat
  | 0, _ => []
  | n + 1, v => toBytesBE n (v / 256) ++ [v % 256]

/-- Big-endian interpretation of a byte list, inverse of `toBytesBE`. -/
def decodeBE (l : List Nat) : Nat :=
  l.foldl (fun a b => 256 * a + b) 0

/-- Type `Err` mirrors the exception classes the source can raise. -/
inductive Err where
  | overflowError
  | valueError (msg : String)
  | typeError (msg : String)
  | structError (msg : String)
  | exception (msg : String)
deriving DecidableEq

deriving instance DecidableEq for Except

/-- Model of `int.to_bytes(n)`: unsigned big-endian, `OverflowError` when the value is
negative or does not fit in `n` bytes. -/
def to_bytes? (n : Nat) (v : ℤ) : Except Err (List Nat) :=
  if 0 ≤ v ∧ v < (256 : ℤ) ^ n then .ok (toBytesBE n v.toNat) else .error .overflowError

/-- A `Nat` enum value to one byte, as `int.to_bytes(1)`. -/
def to_bytes1? (v : Nat) : Except Err (List Nat) :=
  if v < 256 then .ok [v] else .error .overflowError

/-- Python's `round` on an exact rational: round to nearest, ties to the
nearest even integer.  `f` is `⌊q⌋` (`q.num / q.den` is flooring division
here, cf. `Rat.floor_def`), and comparing the fractional remainder with `1/2`
is done by comparing `2 * (q.num - f * q.den)` with `q.den`. -/
def pyRound (q : ℚ) : ℤ :=
  let f : ℤ := q.num / (q.den : ℤ)
  let r2 : ℤ := 2 * (q.num - f * (q.den : ℤ))
  if r2 < (q.den : ℤ) then f
  else if (q.den : ℤ) < r2 then f + 1
  else if f % 2 = 0 then f else f + 1

/-- Model of `_pack_string`: `len(string).to_bytes(4) + string.encode()`.  Note the
source prefixes the **code point count** `len(string)`, while the bytes that
follow are the UTF-8 encoding. -/
def utf8Bytes (s : String) : List Nat :=
  (s.data.flatMap String.utf8EncodeChar).map UInt8.toNat

def pack_string (s : String) : List Nat :=
  toBytesBE 4 s.length ++ utf8Bytes s

/-- Model of `_pack_enum`: dictionary lookup (a dict is an association list with
distinct keys, insertion order preserved), `ValueError` listing the valid
keys when absent, else the table integer as one byte. -/
def pack_enum (value : String) (enum : List (String × Nat)) : Except Err (List Nat) :=
  match enum.lookup value with
  | none => .error (.valueError ("Invalid value: " ++ value ++ ". Valid values: " ++
      String.intercalate ", " (enum.map Prod.fst)))
  | some v => to_bytes1? v

def TEXT_RENDERING : List (String × Nat) :=
  [("auto", 0), ("optimizeSpeed", 1), ("optimizeLegibility", 2), ("geometricPrecision", 3)]

def LINE_CAP : List (String × Nat) :=
  [("butt", 0), ("round", 1), ("square", 2)]

def LINE_JOIN : List (String × Nat) :=
  [("miter", 0), ("bevel", 1), ("round", 2)]

def TEXT_ALIGN : List (String × Nat) :=
  [("start", 0), ("end", 1), ("left", 2), ("right", 3), ("center", 4)]

def TEXT_BASELINE : List (String × Nat) :=
  [("alphabetic", 0), ("hanging", 1), ("top", 2), ("middle", 3), ("bottom", 4), ("ideographic", 5)]

def DIRECTION : List (String × Nat) :=
  [("inherit", 0), ("ltr", 1), ("rtl", 2)]

def FONT_KERNING : List (String × Nat) :=
  [("auto", 0), ("normal", 1), ("none", 2)]

def FONT_STRETCH : List (String × Nat) :=
  [("normal", 0), ("ultra-condensed", 1), ("extra-condensed", 2), ("condensed", 3),
   ("semi-condensed", 4), ("semi-expanded", 5), ("expanded", 6), ("extra-expanded", 7),
   ("ultra-expanded", 8)]

def FONT_VARIANT_CAPS : List (String × Nat) :=
  [("normal", 0), ("small-caps", 1), ("all-small-caps", 2), ("petite-caps", 3),
   ("all-petite-caps", 4), ("unicase", 5), ("titling-caps", 6)]

def FILL_RULE : List (String × Nat) :=
  [("nonzero", 0), ("evenodd", 1)]

def GLOBAL_COMPOSITE_OPERATION : List (String × Nat) :=
  [("source-over", 0), ("source-in", 1), ("source-out", 2), ("source-atop", 3),
   ("destination-over", 4), ("destination-in", 5), ("destination-out", 6),
   ("destination-atop", 7), ("lighter", 8), ("copy", 9), ("xor", 10), ("multiply", 11),
   ("screen", 12), ("overlay", 13), ("darken", 14), ("lighten", 15), ("color-dodge", 16),
   ("color-burn", 17), ("hard-light", 18), ("soft-light", 19), ("difference", 20),
   ("exclusion", 21), ("hue", 22), ("saturation", 23), ("color", 24), ("luminosity", 25)]

def IMAGE_SMOOTHING_QUALITY : List (String × Nat) :=
  [("low", 0), ("medium", 1), ("high", 2)]

/-- All enumerated-domain tables of the module, in source order. -/
def enumTables : List (List (String × Nat)) :=
  [TEXT_RENDERING, LINE_CAP, LINE_JOIN, TEXT_ALIGN, TEXT_BASELINE, DIRECTION,
   FONT_KERNING, FONT_STRETCH, FONT_VARIANT_CAPS, FILL_RULE,
   GLOBAL_COMPOSITE_OPERATION, IMAGE_SMOOTHING_QUALITY]

/-- Model of `struct.pack("B", v)`: one unsigned byte, `struct.error` out of range. -/
def pack_B? (v : ℤ) : Except Err Nat :=
  if 0 ≤ v ∧ v < 256 then .ok v.toNat
  else .error (.structError "ubyte format requires 0 <= number <= 255")

/-- The gradient sum type.  The source's `CanvasGradient` dataclass hierarchy
(`_LinearGradient`, `_ConicGradient`, `_RadialGradient`, each owning the
inherited stop list plus its own geometry) is a tagged union; dataclass
`__eq__` is: same concrete class and field-wise equality, which is exactly
structural equality of this inductive. -/
inductive Gradient where
  | linear (stops : List (ℚ × String)) (x0 y0 x1 y1 : ℚ)
  | conic (stops : List (ℚ × String)) (x y angle : ℚ)
  | radial (stops : List (ℚ × String)) (x0 y0 r0 x1 y1 r1 : ℚ)
deriving DecidableEq

def Gradient.stops : Gradient → List (ℚ × String)
  | .linear s _ _ _ _ => s
  | .conic s _ _ _ => s
  | .radial s _ _ _ _ _ _ => s

/-- Replace the stop list, keeping the kind and geometry. -/
def Gradient.withStops : Gradient → List (ℚ × String) → Gradient
  | .linear _ a b c d, s => .linear s a b c d
  | .conic _ a b c, s => .conic s a b c
  | .radial _ a b c d e f, s => .radial s a b c d e f

/-- Dataclass `__eq__` spelled out field by field: the two operands are of
the same concrete class and every field (the inherited stop list and each
geometry component) is equal. -/
def Gradient.fieldsEq : Gradient → Gradient → Prop
  | .linear s a b c d, .linear s2 a2 b2 c2 d2 =>
      s = s2 ∧ a = a2 ∧ b = b2 ∧ c = c2 ∧ d = d2
  | .conic s a b c, .conic s2 a2 b2 c2 =>
      s = s2 ∧ a = a2 ∧ b = b2 ∧ c = c2
  | .radial s a b c d e f, .radial s2 a2 b2 c2 d2 e2 f2 =>
      s = s2 ∧ a = a2 ∧ b = b2 ∧ c = c2 ∧ d = d2 ∧ e = e2 ∧ f = f2
  | _, _ => False

/-- Model of `CanvasGradient.add_color_stop`: validate `0 ≤ offset ≤ 1` at insertion
time, append to the stop list.  (Numeric formatting inside the message is
abstracted as the rational's `toString`.) -/
def add_color_stop (g : Gradient) (offset : ℚ) (color : String) :
    Except Err Gradient :=
  if offset < 0 ∨ offset > 1 then
    .error (.valueError ("Invalid offset: " ++ toString offset ++
      ". Offset must be between 0 and 1"))
  else .ok (g.withStops (g.stops ++ [(offset, color)]))

def create_linear_gradient (x0 y0 x1 y1 : ℚ) : Gradient := .linear [] x0 y0 x1 y1

def create_conic_gradient (x y angle : ℚ) : Gradient := .conic [] x y angle

def create_radial_gradient (x0 y0 r0 x1 y1 r1 : ℚ) : Gradient := .radial [] x0 y0 r0 x1 y1 r1

/-- Model of `CanvasGradient._pack`, the common prefix: `pack("B", len(stops))` then, per
stop in insertion order, the 4-byte float offset and the packed color. -/
def packStops (pf : ℚ → List Nat) (stops : List (ℚ × String)) :
    Except Err (List Nat) := do
  let cnt ← pack_B? (stops.length : ℤ)
  .ok (cnt :: (stops.map fun p => pf p.1 ++ pack_string p.2).flatten)

/-- Model of `_pack` of each subclass: common prefix, one kind tag byte
(0 = linear, 1 = conic, 2 = radial), then the kind's geometry: rounded 2-byte
fields, and for conic a 4-byte float angle. -/
def Gradient.packBytes (pf : ℚ → List Nat) : Gradient → Except Err (List Nat)
  | .linear stops x0 y0 x1 y1 => do
      let base ← packStops pf stops
      let b0 ← to_bytes? 2 (pyRound x0)
      let b1 ← to_bytes? 2 (pyRound y0)
      let b2 ← to_bytes? 2 (pyRound x1)
      let b3 ← to_bytes? 2 (pyRound y1)
      .ok (base ++ [0] ++ b0 ++ b1 ++ b2 ++ b3)
  | .conic stops x y angle => do
      let base ← packStops pf stops
      let b0 ← to_bytes? 2 (pyRound x)
      let b1 ← to_bytes? 2 (pyRound y)
      .ok (base ++ [1] ++ b0 ++ b1 ++ pf angle)
  | .radial stops x0 y0 r0 x1 y1 r1 => do
      let base ← packStops pf stops
      let b0 ← to_bytes? 2 (pyRound x0)
      let b1 ← to_bytes? 2 (pyRound y0)
      let b2 ← to_bytes? 2 (pyRound r0)
      let b3 ← to_bytes? 2 (pyRound x1)
      let b4 ← to_bytes? 2 (pyRound y1)
      let b5 ← to_bytes? 2 (pyRound r1)
      .ok (base ++ [2] ++ b0 ++ b1 ++ b2 ++ b3 ++ b4 ++ b5)

/-- A fill/stroke style: flat color string or gradient object. -/
inductive Style where
  | color (s : String)
  | grad (g : Gradient)
deriving DecidableEq

/-- One frame as handed to `Context2D.__dispatch`: opcode, surface id,
payload. -/
structure Frame where
  op : Nat
  sid : Nat
  data : List Nat
deriving DecidableEq

/-- The byte stream `__dispatch` writes for one frame:
`(len(data) + 2).to_bytes(4)`, the opcode byte, the surface-id byte, the
payload.  (For payloads below `2^32 - 2` the length field is exact; a larger
payload would make Python's `to_bytes(4)` raise, which no reachable frame
does.) -/
def Frame.wire (f : Frame) : List Nat :=
  toBytesBE 4 (f.data.length + 2) ++ toBytesBE 1 f.op ++ toBytesBE 1 f.sid ++ f.data

/-- The per-surface client state: the surface id plus the in-memory copy of
every stateful property, with the source's class-level defaults. -/
structure Ctx where
  id : Nat
  width : ℚ
  height : ℚ
  text_rendering : String
  line_width : ℚ
  line_cap : String
  line_join : String
  miter_limit : ℚ
  line_dash : List ℤ
  line_dash_offset : ℚ
  font : String
  text_align : String
  text_baseline : String
  direction : String
  letter_spacing : String
  font_kerning : String
  font_stretch : String
  font_variant_caps : String
  word_spacing : String
  fill_style : Style
  stroke_style : Style
  shadow_blur : ℚ
  shadow_color : String
  shadow_offset_x : ℚ
  shadow_offset_y : ℚ
  global_alpha : ℚ
  global_composite_operation : String
  filter : Option String
  image_smoothing_enabled : Bool
  image_smoothing_quality : String
deriving DecidableEq

/-- The class-attribute defaults of `Context2D` (id 0 until allocated). -/
def defaultCtx : Ctx where
  id := 0
  width := 300
  height := 150
  text_rendering := "auto"
  line_width := 1
  line_cap := "butt"
  line_join := "miter"
  miter_limit := 10
  line_dash := []
  line_dash_offset := 0
  font := "10px sans-serif"
  text_align := "start"
  text_baseline := "alphabetic"
  direction := "inherit"
  letter_spacing := "0px"
  font_kerning := "auto"
  font_stretch := "normal"
  font_variant_caps := "normal"
  word_spacing := "0px"
  fill_style := .color "black"
  stroke_style := .color "black"
  shadow_blur := 0
  shadow_color := "#00000000"
  shadow_offset_x := 0
  shadow_offset_y := 0
  global_alpha := 1
  global_composite_operation := "source-over"
  filter := none
  image_smoothing_enabled := true
  image_smoothing_quality := "low"

/-- Model of `Context2D.__init__(width, height)` together with the class counter
`__next_id` (threaded explicitly; it is incremented before the cap check, so
it grows even on a failed construction — the second component).  On success
the creation frame (opcode 0) carries the **rounded** width and height while
the instance stores the arguments unrounded. -/
def newContext (next : Nat) (width height : ℚ) : Except Err (Ctx × Frame) × Nat :=
  (if 256 ≤ next then
    .error (.exception
      "Too many Context2D instances! A program can only have 256 Context2D instances at once")
  else do
    let bw ← to_bytes? 2 (pyRound width)
    let bh ← to_bytes? 2 (pyRound height)
    .ok ({ defaultCtx with id := next, width := width, height := height },
         Frame.mk 0 next (bw ++ bh)),
   next + 1)

/-- Model of `Context2D.remove`: dispatch opcode 1 with an empty payload; the class
counter and the instance state are untouched (no id is freed). -/
def removeCtx (c : Ctx) : Frame := Frame.mk 1 c.id []

/-- Model of `width.setter`: round first, compare the rounded value with the cached
one, dispatch opcode 2 and store the rounded value only on change. -/
def set_width (c : Ctx) (v : ℚ) : Except Err (Ctx × List Frame) :=
  if ((pyRound v : ℤ) : ℚ) = c.width then .ok (c, [])
  else do
    let d ← to_bytes? 2 (pyRound v)
    .ok ({ c with width := ((pyRound v : ℤ) : ℚ) }, [Frame.mk 2 c.id d])

/-- Model of `height.setter`, opcode 3, as `set_width`. -/
def set_height (c : Ctx) (v : ℚ) : Except Err (Ctx × List Frame) :=
  if ((pyRound v : ℤ) : ℚ) = c.height then .ok (c, [])
  else do
    let d ← to_bytes? 2 (pyRound v)
    .ok ({ c with height := ((pyRound v : ℤ) : ℚ) }, [Frame.mk 3 c.id d])

def set_text_rendering (c : Ctx) (v : String) : Except Err (Ctx × List Frame) :=
  if v = c.text_rendering then .ok (c, [])
  else do
    let d ← pack_enum v TEXT_RENDERING
    .ok ({ c with text_rendering := v }, [Frame.mk 9 c.id d])

def set_line_width (pf : ℚ → List Nat) (c : Ctx) (v : ℚ) : Except Err (Ctx × List Frame) :=
  if v = c.line_width then .ok (c, [])
  else .ok ({ c with line_width := v }, [Frame.mk 10 c.id (pf v)])

def set_line_cap (c : Ctx) (v : String) : Except Err (Ctx × List Frame) :=
  if v = c.line_cap then .ok (c, [])
  else do
    let d ← pack_enum v LINE_CAP
    .ok ({ c with line_cap := v }, [Frame.mk 11 c.id d])

def set_line_join (c : Ctx) (v : String) : Except Err (Ctx × List Frame) :=
  if v = c.line_join then .ok (c, [])
  else do
    let d ← pack_enum v LINE_JOIN
    .ok ({ c with line_join := v }, [Frame.mk 12 c.id d])

def set_miter_limit (pf : ℚ → List Nat) (c : Ctx) (v : ℚ) : Except Err (Ctx × List Frame) :=
  if v = c.miter_limit then .ok (c, [])
  else .ok ({ c with miter_limit := v }, [Frame.mk 13 c.id (pf v)])

/-- Payload of `set_line_dash`: `pack("B" * (len + 1), len, *dashes)`. -/
def dash_payload? (dashes : List ℤ) : Except Err (List Nat) := do
  let n ← pack_B? (dashes.length : ℤ)
  let rest ← dashes.mapM pack_B?
  .ok (n :: rest)

def set_line_dash (c : Ctx) (v : List ℤ) : Except Err (Ctx × List Frame) :=
  if v = c.line_dash then .ok (c, [])
  else do
    let d ← dash_payload? v
    .ok ({ c with line_dash := v }, [Frame.mk 14 c.id d])

def set_line_dash_offset (pf : ℚ → List Nat) (c : Ctx) (v : ℚ) :
    Except Err (Ctx × List Frame) :=
  if v = c.line_dash_offset then .ok (c, [])
  else .ok ({ c with line_dash_offset := v }, [Frame.mk 15 c.id (pf v)])

def set_font (c : Ctx) (v : String) : Except Err (Ctx × List Frame) :=
  if v = c.font then .ok (c, [])
  else .ok ({ c with font := v }, [Frame.mk 16 c.id (pack_string v)])

def set_text_align (c : Ctx) (v : String) : Except Err (Ctx × List Frame) :=
  if v = c.text_align then .ok (c, [])
  else do
    let d ← pack_enum v TEXT_ALIGN
    .ok ({ c with text_align := v }, [Frame.mk 17 c.id d])

def set_text_baseline (c : Ctx) (v : String) : Except Err (Ctx × List Frame) :=
  if v = c.text_baseline then .ok (c, [])
  else do
    let d ← pack_enum v TEXT_BASELINE
    .ok ({ c with text_baseline := v }, [Frame.mk 18 c.id d])

def set_direction (c : Ctx) (v : String) : Except Err (Ctx × List Frame) :=
  if v = c.direction then .ok (c, [])
  else do
    let d ← pack_enum v DIRECTION
    .ok ({ c with direction := v }, [Frame.mk 19 c.id d])

/-- Setter of `letter_spacing` (annotated `float` in the source but compared against
and packed as a string — the working value domain is strings, like
`word_spacing`). -/
def set_letter_spacing (c : Ctx) (v : String) : Except Err (Ctx × List Frame) :=
  if v = c.letter_spacing then .ok (c, [])
  else .ok ({ c with letter_spacing := v }, [Frame.mk 20 c.id (pack_string v)])

def set_font_kerning (c : Ctx) (v : String) : Except Err (Ctx × List Frame) :=
  if v = c.font_kerning then .ok (c, [])
  else do
    let d ← pack_enum v FONT_KERNING
    .ok ({ c with font_kerning := v }, [Frame.mk 21 c.id d])

def set_font_stretch (c : Ctx) (v : String) : Except Err (Ctx × List Frame) :=
  if v = c.font_stretch then .ok (c, [])
  else do
    let d ← pack_enum v FONT_STRETCH
    .ok ({ c with font_stretch := v }, [Frame.mk 22 c.id d])

def set_font_variant_caps (c : Ctx) (v : String) : Except Err (Ctx × List Frame) :=
  if v = c.font_variant_caps then .ok (c, [])
  else do
    let d ← pack_enum v FONT_VARIANT_CAPS
    .ok ({ c with font_variant_caps := v }, [Frame.mk 23 c.id d])

def set_word_spacing (c : Ctx) (v : String) : Except Err (Ctx × List Frame) :=
  if v = c.word_spacing then .ok (c, [])
  else .ok ({ c with word_spacing := v }, [Frame.mk 24 c.id (pack_string v)])

/-- Payload of `__dispatch_style`: tag byte 0 + packed string for a flat
color, tag byte 1 + `_pack()` for a gradient. -/
def style_payload? (pf : ℚ → List Nat) : Style → Except Err (List Nat)
  | .color s => .ok (0 :: pack_string s)
  | .grad g => do
      let b ← g.packBytes pf
      .ok (1 :: b)

def set_fill_style (pf : ℚ → List Nat) (c : Ctx) (v : Style) :
    Except Err (Ctx × List Frame) :=
  if v = c.fill_style then .ok (c, [])
  else do
    let d ← style_payload? pf v
    .ok ({ c with fill_style := v }, [Frame.mk 25 c.id d])

def set_stroke_style (pf : ℚ → List Nat) (c : Ctx) (v : Style) :
    Except Err (Ctx × List Frame) :=
  if v = c.stroke_style then .ok (c, [])
  else do
    let d ← style_payload? pf v
    .ok ({ c with stroke_style := v }, [Frame.mk 26 c.id d])

def set_shadow_blur (pf : ℚ → List Nat) (c : Ctx) (v : ℚ) : Except Err (Ctx × List Frame) :=
  if v = c.shadow_blur then .ok (c, [])
  else .ok ({ c with shadow_blur := v }, [Frame.mk 27 c.id (pf v)])

def set_shadow_color (c : Ctx) (v : String) : Except Err (Ctx × List Frame) :=
  if v = c.shadow_color then .ok (c, [])
  else .ok ({ c with shadow_color := v }, [Frame.mk 28 c.id (pack_string v)])

def set_shadow_offset_x (pf : ℚ → List Nat) (c : Ctx) (v : ℚ) :
    Except Err (Ctx × List Frame) :=
  if v = c.shadow_offset_x then .ok (c, [])
  else .ok ({ c with shadow_offset_x := v }, [Frame.mk 29 c.id (pf v)])

def set_shadow_offset_y (pf : ℚ → List Nat) (c : Ctx) (v : ℚ) :
    Except Err (Ctx × List Frame) :=
  if v = c.shadow_offset_y then .ok (c, [])
  else .ok ({ c with shadow_offset_y := v }, [Frame.mk 30 c.id (pf v)])

def set_global_alpha (pf : ℚ → List Nat) (c : Ctx) (v : ℚ) : Except Err (Ctx × List Frame) :=
  if v = c.global_alpha then .ok (c, [])
  else .ok ({ c with global_alpha := v }, [Frame.mk 51 c.id (pf v)])

def set_global_composite_operation (c : Ctx) (v : String) : Except Err (Ctx × List Frame) :=
  if v = c.global_composite_operation then .ok (c, [])
  else do
    let d ← pack_enum v GLOBAL_COMPOSITE_OPERATION
    .ok ({ c with global_composite_operation := v }, [Frame.mk 52 c.id d])

/-- Applying `_pack_string` to `None` is a `TypeError` (the `filter` default is `None`). -/
def pack_filter? : Option String → Except Err (List Nat)
  | none => .error (.typeError "object of type NoneType has no len()")
  | some s => .ok (pack_string s)

/-- Model of `filter.setter` (the source stores the new value before dispatching; with
exceptions modelled as `Except.error` dropping the state, the observable
success behavior matches the other setters). -/
def set_filter (c : Ctx) (v : Option String) : Except Err (Ctx × List Frame) :=
  if v = c.filter then .ok (c, [])
  else do
    let d ← pack_filter? v
    .ok ({ c with filter := v }, [Frame.mk 56 c.id d])

def set_image_smoothing_enabled (c : Ctx) (v : Bool) : Except Err (Ctx × List Frame) :=
  if v = c.image_smoothing_enabled then .ok (c, [])
  else .ok ({ c with image_smoothing_enabled := v },
    [Frame.mk 59 c.id (if v then [1] else [0])])

def set_image_smoothing_quality (c : Ctx) (v : String) : Except Err (Ctx × List Frame) :=
  if v = c.image_smoothing_quality then .ok (c, [])
  else do
    let d ← pack_enum v IMAGE_SMOOTHING_QUALITY
    .ok ({ c with image_smoothing_quality := v }, [Frame.mk 60 c.id d])

/-- Model of `Context2D.__dispatch_rect`: four rounded 2-byte coordinates. -/
def dispatch_rect (c : Ctx) (op : Nat) (x y w h : ℚ) : Except Err Frame := do
  let b0 ← to_bytes? 2 (pyRound x)
  let b1 ← to_bytes? 2 (pyRound y)
  let b2 ← to_bytes? 2 (pyRound w)
  let b3 ← to_bytes? 2 (pyRound h)
  .ok (Frame.mk op c.id (b0 ++ b1 ++ b2 ++ b3))

def clear_rect (c : Ctx) (x y w h : ℚ) : Except Err Frame := dispatch_rect c 4 x y w h

def fill_rect (c : Ctx) (x y w h : ℚ) : Except Err Frame := dispatch_rect c 5 x y w h

def stroke_rect (c : Ctx) (x y w h : ℚ) : Except Err Frame := dispatch_rect c 6 x y w h

/-- Model of `move_to`: opcode 33, two rounded 2-byte coordinates. -/
def move_to (c : Ctx) (x y : ℚ) : Except Err Frame := do
  let b0 ← to_bytes? 2 (pyRound x)
  let b1 ← to_bytes? 2 (pyRound y)
  .ok (Frame.mk 33 c.id (b0 ++ b1))

/-- Model of `line_to`: opcode 34. -/
def line_to (c : Ctx) (x y : ℚ) : Except Err Frame := do
  let b0 ← to_bytes? 2 (pyRound x)
  let b1 ← to_bytes? 2 (pyRound y)
  .ok (Frame.mk 34 c.id (b0 ++ b1))

/-- Model of `round_rect` with an explicit radii list (the source wraps a single
number into a one-element list first): at most four radii, then rounded
2-byte geometry, a radius-count byte and each rounded 2-byte radius. -/
def round_rect (c : Ctx) (x y w h : ℚ) (radii : List ℚ) : Except Err Frame :=
  if radii.length > 4 then
    .error (.valueError "Too many radii! A round rect can specify at most 4 radii for each corner")
  else do
    let b0 ← to_bytes? 2 (pyRound x)
    let b1 ← to_bytes? 2 (pyRound y)
    let b2 ← to_bytes? 2 (pyRound w)
    let b3 ← to_bytes? 2 (pyRound h)
    let rs ← radii.mapM (fun r => to_bytes? 2 (pyRound r))
    .ok (Frame.mk 41 c.id (b0 ++ b1 ++ b2 ++ b3 ++ toBytesBE 1 radii.length ++ rs.flatten))

/-- The stateful-property setter contract.  `get` reads the cached copy,
`set` is the setter, `op` its opcode, `enc v` the payload encoding of the
assigned value, and `store v` the value actually cached and compared
(`store = id` everywhere except width/height, which round first).
Three clauses: (suppression) a value whose stored form equals the cache
dispatches nothing and leaves the state untouched; (dispatch) otherwise a
successfully encoded value dispatches exactly one frame with the property's
opcode and that payload, caching the stored value; (idempotence) repeating
the same assignment after any successful one dispatches nothing further. -/
def PropOK {α : Type} [DecidableEq α] (get : Ctx → α)
    (set : Ctx → α → Except Err (Ctx × List Frame)) (op : Nat)
    (enc : α → Except Err (List Nat)) (store : α → α) : Prop :=
  ∀ c v,
    (store v = get c → set c v = .ok (c, [])) ∧
    (store v ≠ get c → ∀ d, enc v = .ok d →
      ∃ c2, set c v = .ok (c2, [Frame.mk op c.id d]) ∧ get c2 = store v ∧ c2.id = c.id) ∧
    (∀ c2 fs, set c v = .ok (c2, fs) → set c2 v = .ok (c2, []))

/-- Shadow-state synchronisation: every successful setter call either
dispatched nothing and changed nothing, or dispatched exactly the encoding
of the value that is now cached. -/
def SyncOK {α : Type} [DecidableEq α] (get : Ctx → α)
    (set : Ctx → α → Except Err (Ctx × List Frame)) (op : Nat)
    (enc : α → Except Err (List Nat)) (store : α → α) : Prop :=
  ∀ c v c2 fs, set c v = .ok (c2, fs) →
    (fs = [] ∧ c2 = c) ∨
    ∃ d, enc v = .ok d ∧ fs = [Frame.mk op c.id d] ∧ get c2 = store v

/-- The common shape of every property setter in the source: compare the
stored form of the value against the cache, return silently on equality,
otherwise encode, dispatch one frame and cache the stored form. -/
def updSetter {α : Type} [DecidableEq α] (get : Ctx → α) (upd : Ctx → α → Ctx)
    (op : Nat) (enc : α → Except Err (List Nat)) (store : α → α)
    (c : Ctx) (v : α) : Except Err (Ctx × List Frame) :=
  if store v = get c then .ok (c, [])
  else do
    let d ← enc v
    .ok (upd c (store v), [Frame.mk op c.id d])

/-- An arbitrary concrete instance of the 4-byte float-encoder parameter,
used only to instantiate universally quantified theorems in witnesses. -/
def pfZero : ℚ → List Nat := fun _ => [0, 0, 0, 0]

/-- A rounded coordinate fits the 2-byte unsigned field `int.to_bytes(2)`
writes. -/
def coordOK (v : ℚ) : Prop := 0 ≤ pyRound v ∧ pyRound v < 65536

/-- All geometry coordinates of a gradient fit their 2-byte fields (the
conic angle is a 4-byte float, not a rounded field).  This predicate does
not depend on the stop offsets or colors. -/
def geomOK : Gradient → Prop
  | .linear _ x0 y0 x1 y1 => coordOK x0 ∧ coordOK y0 ∧ coordOK x1 ∧ coordOK y1
  | .conic _ x y _ => coordOK x ∧ coordOK y
  | .radial _ x0 y0 r0 x1 y1 r1 =>
      coordOK x0 ∧ coordOK y0 ∧ coordOK r0 ∧ coordOK x1 ∧ coordOK y1 ∧ coordOK r1

theorem exbind_ok {ε α β : Type} (a : α) (f : α → Except ε β) :
    (Except.ok a : Except ε α) >>= f = f a := rfl

theorem exbind_error {ε α β : Type} (e : ε) (f : α → Except ε β) :
    (Except.error e : Except ε α) >>= f = Except.error e := rfl

theorem toBytesBE_length (n v : Nat) : (toBytesBE n v).length = n := by
  induction n generalizing v with
  | zero => simp [toBytesBE]
  | succ n ih => simp [toBytesBE, ih]

theorem decodeBE_aux (n v acc : Nat) :
    (toBytesBE n v).foldl (fun a b => 256 * a + b) acc = acc * 256 ^ n + v % 256 ^ n := by
  induction n generalizing v acc with
  | zero => simp [toBytesBE, Nat.mod_one]
  | succ n ih =>
    rw [toBytesBE, List.foldl_append, ih]
    simp only [List.foldl_cons, List.foldl_nil]
    rw [pow_succ, mul_comm (256 ^ n) 256, Nat.mod_mul]
    ring

theorem decodeBE_toBytesBE (n v : Nat) (h : v < 256 ^ n) :
    decodeBE (toBytesBE n v) = v := by
  unfold decodeBE
  rw [decodeBE_aux]
  simp [Nat.mod_eq_of_lt h]

theorem genericOK {α : Type} [DecidableEq α] (get : Ctx → α) (upd : Ctx → α → Ctx)
    (op : Nat) (enc : α → Except Err (List Nat)) (store : α → α)
    (hget : ∀ c w, get (upd c w) = w) (hid : ∀ c w, (upd c w).id = c.id) :
    PropOK get (updSetter get upd op enc store) op enc store ∧
    SyncOK get (updSetter get upd op enc store) op enc store := by
  constructor
  · intro c v
    refine ⟨fun he => ?_, fun hne d hd => ?_, fun c2 fs h => ?_⟩
    · simp [updSetter, he]
    · refine ⟨upd c (store v), ?_, hget c (store v), hid c (store v)⟩
      simp only [updSetter, if_neg hne, hd, exbind_ok]
    · by_cases he : store v = get c
      · simp only [updSetter, if_pos he] at h
        have h2 := Except.ok.inj h
        have hc : c = c2 := congrArg Prod.fst h2
        subst hc
        simp [updSetter, he]
      · simp only [updSetter, if_neg he] at h
        cases hd : enc v with
        | error e => rw [hd, exbind_error] at h; exact Except.noConfusion h
        | ok d =>
          rw [hd, exbind_ok] at h
          have h2 := Except.ok.inj h
          have hc : upd c (store v) = c2 := congrArg Prod.fst h2
          subst hc
          simp [updSetter, hget]
  · intro c v c2 fs h
    by_cases he : store v = get c
    · left
      simp only [updSetter, if_pos he] at h
      have h2 := Except.ok.inj h
      exact ⟨(congrArg Prod.snd h2).symm, (congrArg Prod.fst h2).symm⟩
    · right
      simp only [updSetter, if_neg he] at h
      cases hd : enc v with
      | error e => rw [hd, exbind_error] at h; exact Except.noConfusion h
      | ok d =>
        rw [hd, exbind_ok] at h
        have h2 := Except.ok.inj h
        have hc : upd c (store v) = c2 := congrArg Prod.fst h2
        exact ⟨d, rfl, (congrArg Prod.snd h2).symm, hc ▸ hget c (store v)⟩

theorem ok_width : PropOK (fun c => c.width) set_width 2
      (fun v => to_bytes? 2 (pyRound v)) (fun v => ((pyRound v : ℤ) : ℚ)) ∧
    SyncOK (fun c => c.width) set_width 2
      (fun v => to_bytes? 2 (pyRound v)) (fun v => ((pyRound v : ℤ) : ℚ)) :=
  genericOK _ (fun c w => { c with width := w }) _ _ _ (fun _ _ => rfl) (fun _ _ => rfl)

theorem ok_height : PropOK (fun c => c.height) set_height 3
      (fun v => to_bytes? 2 (pyRound v)) (fun v => ((pyRound v : ℤ) : ℚ)) ∧
    SyncOK (fun c => c.height) set_height 3
      (fun v => to_bytes? 2 (pyRound v)) (fun v => ((pyRound v : ℤ) : ℚ)) :=
  genericOK _ (fun c w => { c with height := w }) _ _ _ (fun _ _ => rfl) (fun _ _ => rfl)

theorem ok_text_rendering : PropOK (fun c => c.text_rendering) set_text_rendering 9
      (fun v => pack_enum v TEXT_RENDERING) id ∧
    SyncOK (fun c => c.text_rendering) set_text_rendering 9
      (fun v => pack_enum v TEXT_RENDERING) id :=
  genericOK _ (fun c w => { c with text_rendering := w }) _ _ _ (fun _ _ => rfl) (fun _ _ => rfl)

theorem ok_line_width (pf : ℚ → List Nat) :
    PropOK (fun c => c.line_width) (set_line_width pf) 10 (fun v => .ok (pf v)) id ∧
    SyncOK (fun c => c.line_width) (set_line_width pf) 10 (fun v => .ok (pf v)) id :=
  genericOK (fun c => c.line_width) (fun c w => { c with line_width := w }) 10
    (fun v => .ok (pf v)) id (fun _ _ => rfl) (fun _ _ => rfl)

theorem ok_line_cap : PropOK (fun c => c.line_cap) set_line_cap 11
      (fun v => pack_enum v LINE_CAP) id ∧
    SyncOK (fun c => c.line_cap) set_line_cap 11 (fun v => pack_enum v LINE_CAP) id :=
  genericOK _ (fun c w => { c with line_cap := w }) _ _ _ (fun _ _ => rfl) (fun _ _ => rfl)

theorem ok_line_join : PropOK (fun c => c.line_join) set_line_join 12
      (fun v => pack_enum v LINE_JOIN) id ∧
    SyncOK (fun c => c.line_join) set_line_join 12 (fun v => pack_enum v LINE_JOIN) id :=
  genericOK _ (fun c w => { c with line_join := w }) _ _ _ (fun _ _ => rfl) (fun _ _ => rfl)

theorem ok_miter_limit (pf : ℚ → List Nat) :
    PropOK (fun c => c.miter_limit) (set_miter_limit pf) 13 (fun v => .ok (pf v)) id ∧
    SyncOK (fun c => c.miter_limit) (set_miter_limit pf) 13 (fun v => .ok (pf v)) id :=
  genericOK (fun c => c.miter_limit) (fun c w => { c with miter_limit := w }) 13
    (fun v => .ok (pf v)) id (fun _ _ => rfl) (fun _ _ => rfl)

theorem ok_line_dash : PropOK (fun c => c.line_dash) set_line_dash 14 dash_payload? id ∧
    SyncOK (fun c => c.line_dash) set_line_dash 14 dash_payload? id :=
  genericOK _ (fun c w => { c with line_dash := w }) _ _ _ (fun _ _ => rfl) (fun _ _ => rfl)

theorem ok_line_dash_offset (pf : ℚ → List Nat) :
    PropOK (fun c => c.line_dash_offset) (set_line_dash_offset pf) 15 (fun v => .ok (pf v)) id ∧
    SyncOK (fun c => c.line_dash_offset) (set_line_dash_offset pf) 15 (fun v => .ok (pf v)) id :=
  genericOK (fun c => c.line_dash_offset) (fun c w => { c with line_dash_offset := w }) 15
    (fun v => .ok (pf v)) id (fun _ _ => rfl) (fun _ _ => rfl)

theorem ok_font : PropOK (fun c => c.font) set_font 16 (fun v => .ok (pack_string v)) id ∧
    SyncOK (fun c => c.font) set_font 16 (fun v => .ok (pack_string v)) id :=
  genericOK (fun c => c.font) (fun c w => { c with font := w }) 16
    (fun v => .ok (pack_string v)) id (fun _ _ => rfl) (fun _ _ => rfl)

theorem ok_text_align : PropOK (fun c => c.text_align) set_text_align 17
      (fun v => pack_enum v TEXT_ALIGN) id ∧
    SyncOK (fun c => c.text_align) set_text_align 17 (fun v => pack_enum v TEXT_ALIGN) id :=
  genericOK _ (fun c w => { c with text_align := w }) _ _ _ (fun _ _ => rfl) (fun _ _ => rfl)

theorem ok_text_baseline : PropOK (fun c => c.text_baseline) set_text_baseline 18
      (fun v => pack_enum v TEXT_BASELINE) id ∧
    SyncOK (fun c => c.text_baseline) set_text_baseline 18
      (fun v => pack_enum v TEXT_BASELINE) id :=
  genericOK _ (fun c w => { c with text_baseline := w }) _ _ _ (fun _ _ => rfl) (fun _ _ => rfl)

theorem ok_direction : PropOK (fun c => c.direction) set_direction 19
      (fun v => pack_enum v DIRECTION) id ∧
    SyncOK (fun c => c.direction) set_direction 19 (fun v => pack_enum v DIRECTION) id :=
  genericOK _ (fun c w => { c with direction := w }) _ _ _ (fun _ _ => rfl) (fun _ _ => rfl)

theorem ok_letter_spacing : PropOK (fun c => c.letter_spacing) set_letter_spacing 20
      (fun v => .ok (pack_string v)) id ∧
    SyncOK (fun c => c.letter_spacing) set_letter_spacing 20
      (fun v => .ok (pack_string v)) id :=
  genericOK (fun c => c.letter_spacing) (fun c w => { c with letter_spacing := w }) 20
    (fun v => .ok (pack_string v)) id (fun _ _ => rfl) (fun _ _ => rfl)

theorem ok_font_kerning : PropOK (fun c => c.font_kerning) set_font_kerning 21
      (fun v => pack_enum v FONT_KERNING) id ∧
    SyncOK (fun c => c.font_kerning) set_font_kerning 21
      (fun v => pack_enum v FONT_KERNING) id :=
  genericOK _ (fun c w => { c with font_kerning := w }) _ _ _ (fun _ _ => rfl) (fun _ _ => rfl)

theorem ok_font_stretch : PropOK (fun c => c.font_stretch) set_font_stretch 22
      (fun v => pack_enum v FONT_STRETCH) id ∧
    SyncOK (fun c => c.font_stretch) set_font_stretch 22
      (fun v => pack_enum v FONT_STRETCH) id :=
  genericOK _ (fun c w => { c with font_stretch := w }) _ _ _ (fun _ _ => rfl) (fun _ _ => rfl)

theorem ok_font_variant_caps : PropOK (fun c => c.font_variant_caps) set_font_variant_caps 23
      (fun v => pack_enum v FONT_VARIANT_CAPS) id ∧
    SyncOK (fun c => c.font_variant_caps) set_font_variant_caps 23
      (fun v => pack_enum v FONT_VARIANT_CAPS) id :=
  genericOK _ (fun c w => { c with font_variant_caps := w }) _ _ _ (fun _ _ => rfl)
    (fun _ _ => rfl)

theorem ok_word_spacing : PropOK (fun c => c.word_spacing) set_word_spacing 24
      (fun v => .ok (pack_string v)) id ∧
    SyncOK (fun c => c.word_spacing) set_word_spacing 24 (fun v => .ok (pack_string v)) id :=
  genericOK (fun c => c.word_spacing) (fun c w => { c with word_spacing := w }) 24
    (fun v => .ok (pack_string v)) id (fun _ _ => rfl) (fun _ _ => rfl)

theorem ok_fill_style (pf : ℚ → List Nat) :
    PropOK (fun c => c.fill_style) (set_fill_style pf) 25 (style_payload? pf) id ∧
    SyncOK (fun c => c.fill_style) (set_fill_style pf) 25 (style_payload? pf) id :=
  genericOK _ (fun c w => { c with fill_style := w }) _ _ _ (fun _ _ => rfl) (fun _ _ => rfl)

theorem ok_stroke_style (pf : ℚ → List Nat) :
    PropOK (fun c => c.stroke_style) (set_stroke_style pf) 26 (style_payload? pf) id ∧
    SyncOK (fun c => c.stroke_style) (set_stroke_style pf) 26 (style_payload? pf) id :=
  genericOK _ (fun c w => { c with stroke_style := w }) _ _ _ (fun _ _ => rfl) (fun _ _ => rfl)

theorem ok_shadow_blur (pf : ℚ → List Nat) :
    PropOK (fun c => c.shadow_blur) (set_shadow_blur pf) 27 (fun v => .ok (pf v)) id ∧
    SyncOK (fun c => c.shadow_blur) (set_shadow_blur pf) 27 (fun v => .ok (pf v)) id :=
  genericOK (fun c => c.shadow_blur) (fun c w => { c with shadow_blur := w }) 27
    (fun v => .ok (pf v)) id (fun _ _ => rfl) (fun _ _ => rfl)

theorem ok_shadow_color : PropOK (fun c => c.shadow_color) set_shadow_color 28
      (fun v => .ok (pack_string v)) id ∧
    SyncOK (fun c => c.shadow_color) set_shadow_color 28 (fun v => .ok (pack_string v)) id :=
  genericOK (fun c => c.shadow_color) (fun c w => { c with shadow_color := w }) 28
    (fun v => .ok (pack_string v)) id (fun _ _ => rfl) (fun _ _ => rfl)

theorem ok_shadow_offset_x (pf : ℚ → List Nat) :
    PropOK (fun c => c.shadow_offset_x) (set_shadow_offset_x pf) 29 (fun v => .ok (pf v)) id ∧
    SyncOK (fun c => c.shadow_offset_x) (set_shadow_offset_x pf) 29 (fun v => .ok (pf v)) id :=
  genericOK (fun c => c.shadow_offset_x) (fun c w => { c with shadow_offset_x := w }) 29
    (fun v => .ok (pf v)) id (fun _ _ => rfl) (fun _ _ => rfl)

theorem ok_shadow_offset_y (pf : ℚ → List Nat) :
    PropOK (fun c => c.shadow_offset_y) (set_shadow_offset_y pf) 30 (fun v => .ok (pf v)) id ∧
    SyncOK (fun c => c.shadow_offset_y) (set_shadow_offset_y pf) 30 (fun v => .ok (pf v)) id :=
  genericOK (fun c => c.shadow_offset_y) (fun c w => { c with shadow_offset_y := w }) 30
    (fun v => .ok (pf v)) id (fun _ _ => rfl) (fun _ _ => rfl)

theorem ok_global_alpha (pf : ℚ → List Nat) :
    PropOK (fun c => c.global_alpha) (set_global_alpha pf) 51 (fun v => .ok (pf v)) id ∧
    SyncOK (fun c => c.global_alpha) (set_global_alpha pf) 51 (fun v => .ok (pf v)) id :=
  genericOK (fun c => c.global_alpha) (fun c w => { c with global_alpha := w }) 51
    (fun v => .ok (pf v)) id (fun _ _ => rfl) (fun _ _ => rfl)

theorem ok_global_composite_operation :
    PropOK (fun c => c.global_composite_operation) set_global_composite_operation 52
      (fun v => pack_enum v GLOBAL_COMPOSITE_OPERATION) id ∧
    SyncOK (fun c => c.global_composite_operation) set_global_composite_operation 52
      (fun v => pack_enum v GLOBAL_COMPOSITE_OPERATION) id :=
  genericOK _ (fun c w => { c with global_composite_operation := w }) _ _ _
    (fun _ _ => rfl) (fun _ _ => rfl)

theorem ok_filter : PropOK (fun c => c.filter) set_filter 56 pack_filter? id ∧
    SyncOK (fun c => c.filter) set_filter 56 pack_filter? id :=
  genericOK _ (fun c w => { c with filter := w }) _ _ _ (fun _ _ => rfl) (fun _ _ => rfl)

theorem ok_image_smoothing_enabled :
    PropOK (fun c => c.image_smoothing_enabled) set_image_smoothing_enabled 59
      (fun v => .ok (if v then [1] else [0])) id ∧
    SyncOK (fun c => c.image_smoothing_enabled) set_image_smoothing_enabled 59
      (fun v => .ok (if v then [1] else [0])) id :=
  genericOK (fun c => c.image_smoothing_enabled)
    (fun c w => { c with image_smoothing_enabled := w }) 59
    (fun v => .ok (if v then [1] else [0])) id (fun _ _ => rfl) (fun _ _ => rfl)

theorem ok_image_smoothing_quality :
    PropOK (fun c => c.image_smoothing_quality) set_image_smoothing_quality 60
      (fun v => pack_enum v IMAGE_SMOOTHING_QUALITY) id ∧
    SyncOK (fun c => c.image_smoothing_quality) set_image_smoothing_quality 60
      (fun v => pack_enum v IMAGE_SMOOTHING_QUALITY) id :=
  genericOK _ (fun c w => { c with image_smoothing_quality := w }) _ _ _
    (fun _ _ => rfl) (fun _ _ => rfl)

theorem fract_num_den (q : ℚ) :
    Int.fract q = ((q.num - ⌊q⌋ * (q.den : ℤ) : ℤ) : ℚ) / ((q.den : ℕ) : ℚ) := by
  have hd : ((q.den : ℕ) : ℚ) ≠ 0 := Nat.cast_ne_zero.mpr q.den_nz
  have hq : q * ((q.den : ℕ) : ℚ) = (q.num : ℚ) := by
    nth_rewrite 1 [← Rat.num_div_den q]
    exact div_mul_cancel₀ _ hd
  rw [Int.fract]
  rw [eq_div_iff hd]
  push_cast
  linarith [hq]

theorem fract_lt_half (q : ℚ) :
    Int.fract q < 1/2 ↔ 2 * (q.num - ⌊q⌋ * (q.den : ℤ)) < (q.den : ℤ) := by
  have hd : (0 : ℚ) < ((q.den : ℕ) : ℚ) := by exact_mod_cast q.pos
  rw [fract_num_den, div_lt_div_iff₀ hd (by norm_num : (0:ℚ) < 2), one_mul]
  rw [show ((q.num - ⌊q⌋ * (q.den : ℤ) : ℤ) : ℚ) * 2
      = ((2 * (q.num - ⌊q⌋ * (q.den : ℤ)) : ℤ) : ℚ) from by push_cast; ring]
  rw [show ((q.den : ℕ) : ℚ) = (((q.den : ℕ) : ℤ) : ℚ) from by push_cast; ring]
  exact Int.cast_lt

theorem half_lt_fract (q : ℚ) :
    1/2 < Int.fract q ↔ (q.den : ℤ) < 2 * (q.num - ⌊q⌋ * (q.den : ℤ)) := by
  have hd : (0 : ℚ) < ((q.den : ℕ) : ℚ) := by exact_mod_cast q.pos
  rw [fract_num_den, div_lt_div_iff₀ (by norm_num : (0:ℚ) < 2) hd, one_mul]
  rw [show ((q.num - ⌊q⌋ * (q.den : ℤ) : ℤ) : ℚ) * 2
      = ((2 * (q.num - ⌊q⌋ * (q.den : ℤ)) : ℤ) : ℚ) from by push_cast; ring]
  rw [show ((q.den : ℕ) : ℚ) = (((q.den : ℕ) : ℤ) : ℚ) from by push_cast; ring]
  exact Int.cast_lt

/-- Function `pyRound` characterised through `⌊q⌋` and the fractional part: round to
the nearest integer, and on an exact half round to the even neighbour. -/
theorem pyRound_fract (q : ℚ) :
    pyRound q =
      if Int.fract q < 1/2 then ⌊q⌋
      else if 1/2 < Int.fract q then ⌊q⌋ + 1
      else if ⌊q⌋ % 2 = 0 then ⌊q⌋ else ⌊q⌋ + 1 := by
  simp only [pyRound]
  rw [← Rat.floor_def]
  exact if_congr (fract_lt_half q).symm rfl (if_congr (half_lt_fract q).symm rfl rfl)

theorem to_bytes2_cond (z : ℤ) :
    to_bytes? 2 z =
      if 0 ≤ z ∧ z < 65536 then .ok (toBytesBE 2 z.toNat) else .error .overflowError := by
  unfold to_bytes?
  norm_num

theorem lookup_none_of_not_mem {t : List (String × Nat)} {s : String}
    (hs : s ∉ t.map Prod.fst) : t.lookup s = none := by
  induction t with
  | nil => rfl
  | cons p tl ih =>
    simp only [List.map_cons, List.mem_cons, not_or] at hs
    cases p with
    | mk k v =>
      have hk : (s == k) = false := beq_eq_false_iff_ne.mpr hs.1
      rw [List.lookup, hk]
      exact ih hs.2

theorem fieldsEq_eq {g1 g2 : Gradient} (h : Gradient.fieldsEq g1 g2) : g1 = g2 := by
  cases g1 <;> cases g2 <;> simp_all [Gradient.fieldsEq]

/-- C1 (confirmed): for every frame written by the dispatcher, the 4-byte
length field decodes to the payload length plus 2, and the bytes written
after the length field are exactly one opcode byte, one surface-id byte and
the payload — so the declared length matches the byte count that follows. -/
theorem c1_frame_length (f : Frame) (hop : f.op < 256) (hsid : f.sid < 256)
    (hlen : f.data.length + 2 < 256 ^ 4) :
    decodeBE (f.wire.take 4) = f.data.length + 2 ∧
    f.wire.drop 4 = f.op :: f.sid :: f.data ∧
    (f.wire.drop 4).length = f.data.length + 2 := by
  have h4 : (toBytesBE 4 (f.data.length + 2)).length = 4 := toBytesBE_length 4 _
  have hwire : f.wire = toBytesBE 4 (f.data.length + 2) ++
      (toBytesBE 1 f.op ++ (toBytesBE 1 f.sid ++ f.data)) := by
    rw [Frame.wire]
    simp [List.append_assoc]
  have hopb : toBytesBE 1 f.op = [f.op] := by
    simp [toBytesBE, Nat.mod_eq_of_lt hop]
  have hsidb : toBytesBE 1 f.sid = [f.sid] := by
    simp [toBytesBE, Nat.mod_eq_of_lt hsid]
  have hdrop : f.wire.drop 4 = f.op :: f.sid :: f.data := by
    rw [hwire, List.drop_left' h4, hopb, hsidb]
    rfl
  refine ⟨?_, hdrop, ?_⟩
  · rw [hwire, List.take_left' h4]
    exact decodeBE_toBytesBE 4 _ hlen
  · rw [hdrop]
    simp

theorem c1_frame_length_witness :
    decodeBE ((Frame.mk 10 0 [1, 2, 3]).wire.take 4) = 3 + 2 ∧
    (Frame.mk 10 0 [1, 2, 3]).wire.drop 4 = 10 :: 0 :: [1, 2, 3] ∧
    ((Frame.mk 10 0 [1, 2, 3]).wire.drop 4).length = 3 + 2 :=
  c1_frame_length (Frame.mk 10 0 [1, 2, 3]) (by decide) (by decide) (by decide)

/-- C3 (code bug): `_pack_string` prefixes `len(string)` — the code-point
count — not the count of the UTF-8 bytes it then writes.  On `"é"` (one code
point, two UTF-8 bytes `0xC3 0xA9`) the 4-byte prefix decodes to 1 while 2
bytes follow it. -/
theorem c3_pack_string_code_points :
    pack_string "é" = toBytesBE 4 1 ++ [195, 169] ∧
    decodeBE ((pack_string "é").take 4) = 1 ∧
    (utf8Bytes "é").length = 2 ∧
    ((pack_string "é").drop 4).length = 2 := by decide

/-- C2 (counterexample): on a fresh surface (cached width 300) assigning
`width = 300.5` — a value different from the cached one — dispatches **no**
frame, because the width setter rounds before the change comparison and
`round(300.5) = 300` (half-to-even). -/
theorem c2_cex_width_rounding :
    set_width defaultCtx (mkRat 601 2) = .ok (defaultCtx, []) ∧
    mkRat 601 2 ≠ defaultCtx.width := by decide

/-- C2 (amended): for every stateful property, assigning a value whose
*stored form* equals the cached value (the stored form is the value itself,
except for width/height where it is the rounded value) dispatches no frame;
assigning a value with a different stored form that encodes successfully
dispatches exactly one frame with the property's opcode and encoded payload;
and repeating the same assignment after a successful one dispatches nothing
more — so the same value assigned twice yields at most one frame. -/
theorem c2_property_setters (pf : ℚ → List Nat) :
    PropOK (fun c => c.width) set_width 2 (fun v => to_bytes? 2 (pyRound v))
      (fun v => ((pyRound v : ℤ) : ℚ)) ∧
    PropOK (fun c => c.height) set_height 3 (fun v => to_bytes? 2 (pyRound v))
      (fun v => ((pyRound v : ℤ) : ℚ)) ∧
    PropOK (fun c => c.text_rendering) set_text_rendering 9
      (fun v => pack_enum v TEXT_RENDERING) id ∧
    PropOK (fun c => c.line_width) (set_line_width pf) 10 (fun v => .ok (pf v)) id ∧
    PropOK (fun c => c.line_cap) set_line_cap 11 (fun v => pack_enum v LINE_CAP) id ∧
    PropOK (fun c => c.line_join) set_line_join 12 (fun v => pack_enum v LINE_JOIN) id ∧
    PropOK (fun c => c.miter_limit) (set_miter_limit pf) 13 (fun v => .ok (pf v)) id ∧
    PropOK (fun c => c.line_dash) set_line_dash 14 dash_payload? id ∧
    PropOK (fun c => c.line_dash_offset) (set_line_dash_offset pf) 15
      (fun v => .ok (pf v)) id ∧
    PropOK (fun c => c.font) set_font 16 (fun v => .ok (pack_string v)) id ∧
    PropOK (fun c => c.text_align) set_text_align 17 (fun v => pack_enum v TEXT_ALIGN) id ∧
    PropOK (fun c => c.text_baseline) set_text_baseline 18
      (fun v => pack_enum v TEXT_BASELINE) id ∧
    PropOK (fun c => c.direction) set_direction 19 (fun v => pack_enum v DIRECTION) id ∧
    PropOK (fun c => c.letter_spacing) set_letter_spacing 20
      (fun v => .ok (pack_string v)) id ∧
    PropOK (fun c => c.font_kerning) set_font_kerning 21
      (fun v => pack_enum v FONT_KERNING) id ∧
    PropOK (fun c => c.font_stretch) set_font_stretch 22
      (fun v => pack_enum v FONT_STRETCH) id ∧
    PropOK (fun c => c.font_variant_caps) set_font_variant_caps 23
      (fun v => pack_enum v FONT_VARIANT_CAPS) id ∧
    PropOK (fun c => c.word_spacing) set_word_spacing 24
      (fun v => .ok (pack_string v)) id ∧
    PropOK (fun c => c.fill_style) (set_fill_style pf) 25 (style_payload? pf) id ∧
    PropOK (fun c => c.stroke_style) (set_stroke_style pf) 26 (style_payload? pf) id ∧
    PropOK (fun c => c.shadow_blur) (set_shadow_blur pf) 27 (fun v => .ok (pf v)) id ∧
    PropOK (fun c => c.shadow_color) set_shadow_color 28
      (fun v => .ok (pack_string v)) id ∧
    PropOK (fun c => c.shadow_offset_x) (set_shadow_offset_x pf) 29
      (fun v => .ok (pf v)) id ∧
    PropOK (fun c => c.shadow_offset_y) (set_shadow_offset_y pf) 30
      (fun v => .ok (pf v)) id ∧
    PropOK (fun c => c.global_alpha) (set_global_alpha pf) 51 (fun v => .ok (pf v)) id ∧
    PropOK (fun c => c.global_composite_operation) set_global_composite_operation 52
      (fun v => pack_enum v GLOBAL_COMPOSITE_OPERATION) id ∧
    PropOK (fun c => c.filter) set_filter 56 pack_filter? id ∧
    PropOK (fun c => c.image_smoothing_enabled) set_image_smoothing_enabled 59
      (fun v => .ok (if v then [1] else [0])) id ∧
    PropOK (fun c => c.image_smoothing_quality) set_image_smoothing_quality 60
      (fun v => pack_enum v IMAGE_SMOOTHING_QUALITY) id :=
  ⟨ok_width.1, ok_height.1, ok_text_rendering.1, (ok_line_width pf).1, ok_line_cap.1,
   ok_line_join.1, (ok_miter_limit pf).1, ok_line_dash.1, (ok_line_dash_offset pf).1,
   ok_font.1, ok_text_align.1, ok_text_baseline.1, ok_direction.1, ok_letter_spacing.1,
   ok_font_kerning.1, ok_font_stretch.1, ok_font_variant_caps.1, ok_word_spacing.1,
   (ok_fill_style pf).1, (ok_stroke_style pf).1, (ok_shadow_blur pf).1, ok_shadow_color.1,
   (ok_shadow_offset_x pf).1, (ok_shadow_offset_y pf).1, (ok_global_alpha pf).1,
   ok_global_composite_operation.1, ok_filter.1, ok_image_smoothing_enabled.1,
   ok_image_smoothing_quality.1⟩

theorem c2_property_setters_witness :
    set_line_width pfZero defaultCtx 1 = .ok (defaultCtx, []) ∧
    set_width defaultCtx 300 = .ok (defaultCtx, []) :=
  ⟨((c2_property_setters pfZero).2.2.2.1 defaultCtx 1).1 rfl,
   ((c2_property_setters pfZero).1 defaultCtx 300).1 (by decide)⟩

/-- C4 (counterexample): constructing a surface with `width = 300.7`
dispatches a creation frame whose width field encodes 301, while the
in-memory width stays 300.7 ≠ 301 — the in-memory copy differs from the
last value dispatched. -/
theorem c4_cex_ctor_width :
    (newContext 0 (mkRat 3007 10) 150).1 =
      .ok ({ defaultCtx with width := mkRat 3007 10 }, Frame.mk 0 0 [1, 45, 0, 150]) ∧
    decodeBE [1, 45] = 301 ∧
    mkRat 3007 10 ≠ ((301 : ℤ) : ℚ) := by decide

/-- C4 (amended): (constructor) a successful construction stores the given
width/height unrounded while the creation frame carries their rounded
2-byte encodings, so the in-memory copy equals the dispatched value exactly
when the argument equals its own rounding; (setters) every successful
property assignment either dispatches nothing and leaves the state
unchanged, or dispatches exactly the encoding of the value that is now
cached — the shadow state matches the last dispatched value. -/
theorem c4_shadow_sync (pf : ℚ → List Nat) :
    (∀ next w h c fr, (newContext next w h).1 = .ok (c, fr) →
      c.width = w ∧ c.height = h ∧ c.id = next ∧ fr.op = 0 ∧ fr.sid = next ∧
      (∃ bw bh, to_bytes? 2 (pyRound w) = .ok bw ∧ to_bytes? 2 (pyRound h) = .ok bh ∧
        fr.data = bw ++ bh) ∧
      (c.width = ((pyRound w : ℤ) : ℚ) ↔ w = ((pyRound w : ℤ) : ℚ))) ∧
    SyncOK (fun c => c.width) set_width 2 (fun v => to_bytes? 2 (pyRound v))
      (fun v => ((pyRound v : ℤ) : ℚ)) ∧
    SyncOK (fun c => c.height) set_height 3 (fun v => to_bytes? 2 (pyRound v))
      (fun v => ((pyRound v : ℤ) : ℚ)) ∧
    SyncOK (fun c => c.text_rendering) set_text_rendering 9
      (fun v => pack_enum v TEXT_RENDERING) id ∧
    SyncOK (fun c => c.line_width) (set_line_width pf) 10 (fun v => .ok (pf v)) id ∧
    SyncOK (fun c => c.line_cap) set_line_cap 11 (fun v => pack_enum v LINE_CAP) id ∧
    SyncOK (fun c => c.line_join) set_line_join 12 (fun v => pack_enum v LINE_JOIN) id ∧
    SyncOK (fun c => c.miter_limit) (set_miter_limit pf) 13 (fun v => .ok (pf v)) id ∧
    SyncOK (fun c => c.line_dash) set_line_dash 14 dash_payload? id ∧
    SyncOK (fun c => c.line_dash_offset) (set_line_dash_offset pf) 15
      (fun v => .ok (pf v)) id ∧
    SyncOK (fun c => c.font) set_font 16 (fun v => .ok (pack_string v)) id ∧
    SyncOK (fun c => c.text_align) set_text_align 17 (fun v => pack_enum v TEXT_ALIGN) id ∧
    SyncOK (fun c => c.text_baseline) set_text_baseline 18
      (fun v => pack_enum v TEXT_BASELINE) id ∧
    SyncOK (fun c => c.direction) set_direction 19 (fun v => pack_enum v DIRECTION) id ∧
    SyncOK (fun c => c.letter_spacing) set_letter_spacing 20
      (fun v => .ok (pack_string v)) id ∧
    SyncOK (fun c => c.font_kerning) set_font_kerning 21
      (fun v => pack_enum v FONT_KERNING) id ∧
    SyncOK (fun c => c.font_stretch) set_font_stretch 22
      (fun v => pack_enum v FONT_STRETCH) id ∧
    SyncOK (fun c => c.font_variant_caps) set_font_variant_caps 23
      (fun v => pack_enum v FONT_VARIANT_CAPS) id ∧
    SyncOK (fun c => c.word_spacing) set_word_spacing 24
      (fun v => .ok (pack_string v)) id ∧
    SyncOK (fun c => c.fill_style) (set_fill_style pf) 25 (style_payload? pf) id ∧
    SyncOK (fun c => c.stroke_style) (set_stroke_style pf) 26 (style_payload? pf) id ∧
    SyncOK (fun c => c.shadow_blur) (set_shadow_blur pf) 27 (fun v => .ok (pf v)) id ∧
    SyncOK (fun c => c.shadow_color) set_shadow_color 28
      (fun v => .ok (pack_string v)) id ∧
    SyncOK (fun c => c.shadow_offset_x) (set_shadow_offset_x pf) 29
      (fun v => .ok (pf v)) id ∧
    SyncOK (fun c => c.shadow_offset_y) (set_shadow_offset_y pf) 30
      (fun v => .ok (pf v)) id ∧
    SyncOK (fun c => c.global_alpha) (set_global_alpha pf) 51 (fun v => .ok (pf v)) id ∧
    SyncOK (fun c => c.global_composite_operation) set_global_composite_operation 52
      (fun v => pack_enum v GLOBAL_COMPOSITE_OPERATION) id ∧
    SyncOK (fun c => c.filter) set_filter 56 pack_filter? id ∧
    SyncOK (fun c => c.image_smoothing_enabled) set_image_smoothing_enabled 59
      (fun v => .ok (if v then [1] else [0])) id ∧
    SyncOK (fun c => c.image_smoothing_quality) set_image_smoothing_quality 60
      (fun v => pack_enum v IMAGE_SMOOTHING_QUALITY) id := by
  refine ⟨?_, ok_width.2, ok_height.2, ok_text_rendering.2, (ok_line_width pf).2,
    ok_line_cap.2, ok_line_join.2, (ok_miter_limit pf).2, ok_line_dash.2,
    (ok_line_dash_offset pf).2, ok_font.2, ok_text_align.2, ok_text_baseline.2,
    ok_direction.2, ok_letter_spacing.2, ok_font_kerning.2, ok_font_stretch.2,
    ok_font_variant_caps.2, ok_word_spacing.2, (ok_fill_style pf).2, (ok_stroke_style pf).2,
    (ok_shadow_blur pf).2, ok_shadow_color.2, (ok_shadow_offset_x pf).2,
    (ok_shadow_offset_y pf).2, (ok_global_alpha pf).2, ok_global_composite_operation.2,
    ok_filter.2, ok_image_smoothing_enabled.2, ok_image_smoothing_quality.2⟩
  intro next w h c fr hok
  unfold newContext at hok
  by_cases h256 : 256 ≤ next
  · rw [if_pos h256] at hok
    exact Except.noConfusion hok
  · rw [if_neg h256] at hok
    cases hw : to_bytes? 2 (pyRound w) with
    | error e => rw [hw, exbind_error] at hok; exact Except.noConfusion hok
    | ok bw =>
      rw [hw, exbind_ok] at hok
      cases hh : to_bytes? 2 (pyRound h) with
      | error e => rw [hh, exbind_error] at hok; exact Except.noConfusion hok
      | ok bh =>
        rw [hh, exbind_ok] at hok
        have h2 := Except.ok.inj hok
        have hc : ({ defaultCtx with id := next, width := w, height := h } : Ctx) = c :=
          congrArg Prod.fst h2
        have hf : Frame.mk 0 next (bw ++ bh) = fr := congrArg Prod.snd h2
        subst hc
        subst hf
        exact ⟨rfl, rfl, rfl, rfl, rfl, ⟨bw, bh, rfl, rfl, rfl⟩, Iff.rfl⟩

theorem c4_shadow_sync_witness :
    defaultCtx.width = 300 ∧ defaultCtx.height = 150 ∧
    (defaultCtx.width = ((pyRound 300 : ℤ) : ℚ) ↔ (300 : ℚ) = ((pyRound 300 : ℤ) : ℚ)) := by
  have h := (c4_shadow_sync pfZero).1 0 300 150 defaultCtx (Frame.mk 0 0 [1, 44, 0, 150])
    (by decide)
  exact ⟨h.1, h.2.1, h.2.2.2.2.2.2⟩

theorem tb2_chain (z1 z2 : ℤ) (g : List Nat → List Nat → Frame) :
    (do
      let a ← to_bytes? 2 z1
      let b ← to_bytes? 2 z2
      (.ok (g a b) : Except Err Frame)) =
    if 0 ≤ z1 ∧ z1 < 65536 then
      if 0 ≤ z2 ∧ z2 < 65536 then .ok (g (toBytesBE 2 z1.toNat) (toBytesBE 2 z2.toNat))
      else .error .overflowError
    else .error .overflowError := by
  rw [to_bytes2_cond, to_bytes2_cond]
  by_cases h1 : 0 ≤ z1 ∧ z1 < 65536
  · rw [if_pos h1, if_pos h1, exbind_ok]
    by_cases h2 : 0 ≤ z2 ∧ z2 < 65536
    · rw [if_pos h2, if_pos h2, exbind_ok]
    · rw [if_neg h2, if_neg h2, exbind_error]
  · rw [if_neg h1, if_neg h1, exbind_error]

theorem tb4_chain (z1 z2 z3 z4 : ℤ) (g : List Nat → List Nat → List Nat → List Nat → Frame) :
    (do
      let a ← to_bytes? 2 z1
      let b ← to_bytes? 2 z2
      let d ← to_bytes? 2 z3
      let e ← to_bytes? 2 z4
      (.ok (g a b d e) : Except Err Frame)) =
    if (0 ≤ z1 ∧ z1 < 65536) ∧ (0 ≤ z2 ∧ z2 < 65536) ∧
       (0 ≤ z3 ∧ z3 < 65536) ∧ (0 ≤ z4 ∧ z4 < 65536) then
      .ok (g (toBytesBE 2 z1.toNat) (toBytesBE 2 z2.toNat)
             (toBytesBE 2 z3.toNat) (toBytesBE 2 z4.toNat))
    else .error .overflowError := by
  rw [to_bytes2_cond, to_bytes2_cond, to_bytes2_cond, to_bytes2_cond]
  by_cases h1 : 0 ≤ z1 ∧ z1 < 65536
  · rw [if_pos h1, exbind_ok]
    by_cases h2 : 0 ≤ z2 ∧ z2 < 65536
    · rw [if_pos h2, exbind_ok]
      by_cases h3 : 0 ≤ z3 ∧ z3 < 65536
      · rw [if_pos h3, exbind_ok]
        by_cases h4 : 0 ≤ z4 ∧ z4 < 65536
        · rw [if_pos h4, exbind_ok, if_pos ⟨h1, h2, h3, h4⟩]
        · rw [if_neg h4, exbind_error, if_neg (by tauto)]
      · rw [if_neg h3, exbind_error, if_neg (by tauto)]
    · rw [if_neg h2, exbind_error, if_neg (by tauto)]
  · rw [if_neg h1, exbind_error, if_neg (by tauto)]

/-- C5 (counterexample): the coordinate `-1` rounds to `-1`, which lies
inside the representable range of a 2-byte **signed** field
(`-2^15 ≤ -1 ≤ 2^15 - 1`), yet `move_to(-1, 0)` raises `OverflowError`
instead of encoding it — the field is not signed. -/
theorem c5_cex_signed_range :
    move_to defaultCtx (-1) 0 = .error .overflowError ∧
    pyRound (-1) = -1 ∧
    -(2 ^ 15) ≤ (-1 : ℤ) ∧ (-1 : ℤ) ≤ 2 ^ 15 - 1 := by decide

/-- C5 (amended): every drawing coordinate is rounded (half-to-even) and
encoded as a 2-byte **unsigned** big-endian field: the operation succeeds
exactly when each rounded coordinate lies in `[0, 65535]`, the emitted
payload decodes back to the exact rounded values (no truncation), and an
out-of-range rounded coordinate raises `OverflowError`. -/
theorem c5_unsigned_coordinates (c : Ctx) (x y w h : ℚ) :
    ((∃ fr, move_to c x y = .ok fr) ↔ (coordOK x ∧ coordOK y)) ∧
    (∀ fr, move_to c x y = .ok fr →
      fr = Frame.mk 33 c.id
        (toBytesBE 2 (pyRound x).toNat ++ toBytesBE 2 (pyRound y).toNat) ∧
      decodeBE (fr.data.take 2) = (pyRound x).toNat ∧
      decodeBE (fr.data.drop 2) = (pyRound y).toNat) ∧
    (¬ coordOK x → move_to c x y = .error .overflowError) ∧
    ((∃ fr, fill_rect c x y w h = .ok fr) ↔
      (coordOK x ∧ coordOK y ∧ coordOK w ∧ coordOK h)) := by
  have hmv : move_to c x y =
      if 0 ≤ pyRound x ∧ pyRound x < 65536 then
        if 0 ≤ pyRound y ∧ pyRound y < 65536 then
          .ok (Frame.mk 33 c.id
            (toBytesBE 2 (pyRound x).toNat ++ toBytesBE 2 (pyRound y).toNat))
        else .error .overflowError
      else .error .overflowError :=
    tb2_chain (pyRound x) (pyRound y) (fun a b => Frame.mk 33 c.id (a ++ b))
  have hfr : fill_rect c x y w h =
      if (0 ≤ pyRound x ∧ pyRound x < 65536) ∧ (0 ≤ pyRound y ∧ pyRound y < 65536) ∧
         (0 ≤ pyRound w ∧ pyRound w < 65536) ∧ (0 ≤ pyRound h ∧ pyRound h < 65536) then
        .ok (Frame.mk 5 c.id
          (toBytesBE 2 (pyRound x).toNat ++ toBytesBE 2 (pyRound y).toNat ++
           toBytesBE 2 (pyRound w).toNat ++ toBytesBE 2 (pyRound h).toNat))
      else .error .overflowError :=
    tb4_chain (pyRound x) (pyRound y) (pyRound w) (pyRound h)
      (fun a b d e => Frame.mk 5 c.id (a ++ b ++ d ++ e))
  refine ⟨?_, ?_, ?_, ?_⟩
  · rw [hmv]
    unfold coordOK
    split_ifs with h1 h2
    · exact iff_of_true ⟨_, rfl⟩ ⟨h1, h2⟩
    · exact iff_of_false (by rintro ⟨fr, hh⟩; exact hh) (by tauto)
    · exact iff_of_false (by rintro ⟨fr, hh⟩; exact hh) (by tauto)
  · intro fr hok
    rw [hmv] at hok
    split_ifs at hok with h1 h2
    · have hfrm := (Except.ok.inj hok).symm
      subst hfrm
      have hlx : (toBytesBE 2 (pyRound x).toNat).length = 2 := toBytesBE_length 2 _
      have hbx : (pyRound x).toNat < 256 ^ 2 := by
        have h2' : (256 : ℕ) ^ 2 = 65536 := by norm_num
        omega
      have hby : (pyRound y).toNat < 256 ^ 2 := by
        have h2' : (256 : ℕ) ^ 2 = 65536 := by norm_num
        omega
      refine ⟨rfl, ?_, ?_⟩
      · show decodeBE ((toBytesBE 2 (pyRound x).toNat ++ _).take 2) = _
        rw [List.take_left' hlx]
        exact decodeBE_toBytesBE 2 _ hbx
      · show decodeBE ((toBytesBE 2 (pyRound x).toNat ++ _).drop 2) = _
        rw [List.drop_left' hlx]
        exact decodeBE_toBytesBE 2 _ hby
  · intro hx
    rw [hmv, if_neg (by unfold coordOK at hx; exact hx)]
  · rw [hfr]
    unfold coordOK
    split_ifs with h1
    · exact iff_of_true ⟨_, rfl⟩ (by tauto)
    · exact iff_of_false (by rintro ⟨fr, hh⟩; exact hh) (by tauto)

theorem c5_unsigned_coordinates_witness :
    Frame.mk 33 0 [0, 2, 0, 3] = Frame.mk 33 defaultCtx.id
      (toBytesBE 2 (pyRound (mkRat 5 2)).toNat ++ toBytesBE 2 (pyRound 3).toNat) ∧
    decodeBE ((Frame.mk 33 0 [0, 2, 0, 3]).data.take 2) = (pyRound (mkRat 5 2)).toNat ∧
    decodeBE ((Frame.mk 33 0 [0, 2, 0, 3]).data.drop 2) = (pyRound 3).toNat :=
  (c5_unsigned_coordinates defaultCtx (mkRat 5 2) 3 0 0).2.1
    (Frame.mk 33 0 [0, 2, 0, 3]) (by decide)

/-- C6 (confirmed): once 256 surface ids have been handed out — which is
forced as soon as 256 surfaces are concurrently live, since every live id is
below the class counter — construction raises the too-many-surfaces error.
`removeCtx` only dispatches opcode 1 and returns no allocator change, and
the counter never decreases (each attempt returns `next + 1`), so after
removing a surface creation still fails: ids are not reused. -/
theorem c6_surface_cap (live : Finset ℕ) (next : ℕ) (w h : ℚ)
    (hcard : live.card = 256) (hlive : ∀ i ∈ live, i < next) :
    (newContext next w h).1 = .error (.exception
      "Too many Context2D instances! A program can only have 256 Context2D instances at once") ∧
    (newContext next w h).2 = next + 1 ∧
    (∀ c : Ctx, removeCtx c = Frame.mk 1 c.id []) ∧
    (∀ m, next ≤ m → (newContext m w h).1 = .error (.exception
      "Too many Context2D instances! A program can only have 256 Context2D instances at once")) := by
  have h256 : 256 ≤ next := by
    have hsub : live ⊆ Finset.range next := fun i hi => Finset.mem_range.mpr (hlive i hi)
    have hc := Finset.card_le_card hsub
    rw [hcard, Finset.card_range] at hc
    exact hc
  refine ⟨?_, rfl, fun c => rfl, fun m hm => ?_⟩
  · show (newContext next w h).1 = _
    unfold newContext
    rw [if_pos h256]
  · unfold newContext
    rw [if_pos (le_trans h256 hm)]

theorem c6_surface_cap_witness :
    (Finset.range 256).card = 256 ∧
    (newContext 256 300 150).1 = .error (.exception
      "Too many Context2D instances! A program can only have 256 Context2D instances at once") :=
  ⟨Finset.card_range 256,
   (c6_surface_cap (Finset.range 256) 256 300 150 (Finset.card_range 256)
     (fun _ hi => Finset.mem_range.mp hi)).1⟩

/-- C7 (confirmed): for every enumerated-domain table, encoding a key of the
table yields the single byte holding the table's integer for that key, and
encoding any string that is not a key raises the invalid-value error whose
message lists every valid key. -/
theorem c7_enum_encoding :
    ∀ t ∈ enumTables,
      (∀ p ∈ t, pack_enum p.1 t = .ok [p.2]) ∧
      (∀ s, s ∉ t.map Prod.fst →
        pack_enum s t = .error (.valueError ("Invalid value: " ++ s ++
          ". Valid values: " ++ String.intercalate ", " (t.map Prod.fst)))) := by
  intro t ht
  constructor
  · simp only [enumTables, List.mem_cons, List.not_mem_nil, or_false] at ht
    obtain rfl | rfl | rfl | rfl | rfl | rfl | rfl | rfl | rfl | rfl | rfl | rfl := ht <;>
      decide
  · intro s hs
    unfold pack_enum
    rw [lookup_none_of_not_mem hs]

theorem c7_enum_encoding_witness :
    pack_enum "center" TEXT_ALIGN = .ok [4] ∧
    pack_enum "middle" TEXT_ALIGN = .error (.valueError ("Invalid value: " ++ "middle" ++
      ". Valid values: " ++ String.intercalate ", " (TEXT_ALIGN.map Prod.fst))) :=
  ⟨(c7_enum_encoding TEXT_ALIGN (by decide)).1 ("center", 4) (by decide),
   (c7_enum_encoding TEXT_ALIGN (by decide)).2 "middle" (by decide)⟩

theorem pack_B_len (n : ℕ) :
    pack_B? (n : ℤ) =
      if n ≤ 255 then .ok n
      else .error (.structError "ubyte format requires 0 <= number <= 255") := by
  unfold pack_B?
  split_ifs with h1 h2 <;> first | rfl | simp | (exfalso; omega)

theorem exists_ok_bind {ε α β : Type} (x : Except ε α) (f : α → Except ε β) :
    (∃ b, (x >>= f) = .ok b) ↔ (∃ a, x = .ok a ∧ ∃ b, f a = .ok b) := by
  cases x with
  | ok a =>
    rw [exbind_ok]
    constructor
    · rintro ⟨b, hb⟩
      exact ⟨a, rfl, b, hb⟩
    · rintro ⟨a2, ha2, b, hb⟩
      cases Except.ok.inj ha2
      exact ⟨b, hb⟩
  | error e =>
    rw [exbind_error]
    constructor
    · rintro ⟨b, hb⟩
      exact absurd hb (by simp)
    · rintro ⟨a2, ha2, -⟩
      exact absurd ha2 (by simp)

theorem packStops_ok (pf : ℚ → List Nat) (stops : List (ℚ × String))
    (h : stops.length ≤ 255) :
    packStops pf stops =
      .ok (stops.length :: (stops.map fun p => pf p.1 ++ pack_string p.2).flatten) := by
  unfold packStops
  rw [pack_B_len, if_pos h, exbind_ok]

theorem packStops_ok_iff (pf : ℚ → List Nat) (stops : List (ℚ × String)) :
    (∃ b, packStops pf stops = .ok b) ↔ stops.length ≤ 255 := by
  unfold packStops
  rw [exists_ok_bind, pack_B_len]
  split_ifs with h
  · exact iff_of_true ⟨_, rfl, _, rfl⟩ h
  · refine iff_of_false ?_ h
    rintro ⟨a, ha, -⟩
    exact absurd ha (by simp)

theorem tb2_ok_iff (z : ℤ) : (∃ b, to_bytes? 2 z = .ok b) ↔ (0 ≤ z ∧ z < 65536) := by
  rw [to_bytes2_cond]
  split_ifs with h
  · exact iff_of_true ⟨_, rfl⟩ h
  · refine iff_of_false ?_ h
    rintro ⟨b, hb⟩
    exact absurd hb (by simp)

theorem packBytes_ok_iff (pf : ℚ → List Nat) (g : Gradient) :
    (∃ b, g.packBytes pf = .ok b) ↔ (g.stops.length ≤ 255 ∧ geomOK g) := by
  cases g with
  | linear stops x0 y0 x1 y1 =>
    simp only [Gradient.packBytes, exists_ok_bind, Gradient.stops, geomOK, coordOK]
    constructor
    · rintro ⟨base, hbase, b0, h0, b1, h1, b2, h2, b3, h3, -⟩
      exact ⟨(packStops_ok_iff pf stops).mp ⟨base, hbase⟩,
        (tb2_ok_iff _).mp ⟨b0, h0⟩, (tb2_ok_iff _).mp ⟨b1, h1⟩,
        (tb2_ok_iff _).mp ⟨b2, h2⟩, (tb2_ok_iff _).mp ⟨b3, h3⟩⟩
    · rintro ⟨hs, h0, h1, h2, h3⟩
      obtain ⟨b0, e0⟩ := (tb2_ok_iff _).mpr h0
      obtain ⟨b1, e1⟩ := (tb2_ok_iff _).mpr h1
      obtain ⟨b2, e2⟩ := (tb2_ok_iff _).mpr h2
      obtain ⟨b3, e3⟩ := (tb2_ok_iff _).mpr h3
      exact ⟨_, packStops_ok pf stops hs, b0, e0, b1, e1, b2, e2, b3, e3, _, rfl⟩
  | conic stops x y angle =>
    simp only [Gradient.packBytes, exists_ok_bind, Gradient.stops, geomOK, coordOK]
    constructor
    · rintro ⟨base, hbase, b0, h0, b1, h1, -⟩
      exact ⟨(packStops_ok_iff pf stops).mp ⟨base, hbase⟩,
        (tb2_ok_iff _).mp ⟨b0, h0⟩, (tb2_ok_iff _).mp ⟨b1, h1⟩⟩
    · rintro ⟨hs, h0, h1⟩
      obtain ⟨b0, e0⟩ := (tb2_ok_iff _).mpr h0
      obtain ⟨b1, e1⟩ := (tb2_ok_iff _).mpr h1
      exact ⟨_, packStops_ok pf stops hs, b0, e0, b1, e1, _, rfl⟩
  | radial stops x0 y0 r0 x1 y1 r1 =>
    simp only [Gradient.packBytes, exists_ok_bind, Gradient.stops, geomOK, coordOK]
    constructor
    · rintro ⟨base, hbase, b0, h0, b1, h1, b2, h2, b3, h3, b4, h4, b5, h5, -⟩
      exact ⟨(packStops_ok_iff pf stops).mp ⟨base, hbase⟩,
        (tb2_ok_iff _).mp ⟨b0, h0⟩, (tb2_ok_iff _).mp ⟨b1, h1⟩,
        (tb2_ok_iff _).mp ⟨b2, h2⟩, (tb2_ok_iff _).mp ⟨b3, h3⟩,
        (tb2_ok_iff _).mp ⟨b4, h4⟩, (tb2_ok_iff _).mp ⟨b5, h5⟩⟩
    · rintro ⟨hs, h0, h1, h2, h3, h4, h5⟩
      obtain ⟨b0, e0⟩ := (tb2_ok_iff _).mpr h0
      obtain ⟨b1, e1⟩ := (tb2_ok_iff _).mpr h1
      obtain ⟨b2, e2⟩ := (tb2_ok_iff _).mpr h2
      obtain ⟨b3, e3⟩ := (tb2_ok_iff _).mpr h3
      obtain ⟨b4, e4⟩ := (tb2_ok_iff _).mpr h4
      obtain ⟨b5, e5⟩ := (tb2_ok_iff _).mpr h5
      exact ⟨_, packStops_ok pf stops hs, b0, e0, b1, e1, b2, e2, b3, e3, b4, e4,
        b5, e5, _, rfl⟩

/-- C8 (confirmed): `add_color_stop` raises the value error exactly when the
offset is outside `[0, 1]`; an in-range stop is appended at the end of the
stop list (insertion order preserved, kind and geometry untouched); and
gradient encoding succeeds exactly when the stop count fits its count byte
and the geometry fits its 2-byte fields — a condition independent of every
stop's offset value, so encoding never fails on account of an offset. -/
theorem c8_color_stop (g : Gradient) (off : ℚ) (color : String) :
    (add_color_stop g off color = .error (.valueError ("Invalid offset: " ++ toString off ++
        ". Offset must be between 0 and 1")) ↔ (off < 0 ∨ off > 1)) ∧
    (¬(off < 0 ∨ off > 1) →
      add_color_stop g off color = .ok (g.withStops (g.stops ++ [(off, color)]))) ∧
    (∀ l, (g.withStops l).stops = l) ∧
    g.withStops g.stops = g ∧
    (∀ pf, (∃ b, g.packBytes pf = .ok b) ↔ (g.stops.length ≤ 255 ∧ geomOK g)) := by
  refine ⟨?_, ?_, ?_, ?_, fun pf => packBytes_ok_iff pf g⟩
  · unfold add_color_stop
    split_ifs with h
    · exact iff_of_true rfl h
    · exact iff_of_false (by simp) h
  · intro hn
    unfold add_color_stop
    rw [if_neg hn]
  · intro l
    cases g <;> rfl
  · cases g <;> rfl

theorem c8_color_stop_witness :
    add_color_stop (create_linear_gradient 0 0 100 100) (mkRat 1 2) "red" =
      .ok (Gradient.linear [(mkRat 1 2, "red")] 0 0 100 100) ∧
    add_color_stop (create_linear_gradient 0 0 100 100) 2 "red" =
      .error (.valueError ("Invalid offset: " ++ toString (2 : ℚ) ++
        ". Offset must be between 0 and 1")) :=
  ⟨(c8_color_stop (create_linear_gradient 0 0 100 100) (mkRat 1 2) "red").2.1 (by decide),
   ((c8_color_stop (create_linear_gradient 0 0 100 100) 2 "red").1).mpr (by decide)⟩

/-- C9 (confirmed): every real-to-integer conversion of the module is
`pyRound`, Python's `round`: a value exactly halfway between two integers
rounds to the nearest even integer (`k + 1/2` rounds to `k` when `k` is
even, else to `k + 1`; the result is always even; `0.5 → 0`, `1.5 → 2`,
`2.5 → 2`), and the conversions feeding the 2-byte encodings and the
width shadow-comparison observe only the rounded value (`move_to`,
`set_width` and `round_rect` at `2.5` coincide with their value at `2`). -/
theorem c9_round_half_to_even :
    (∀ k : ℤ, pyRound ((k : ℚ) + 1/2) = if k % 2 = 0 then k else k + 1) ∧
    (∀ k : ℤ, (pyRound ((k : ℚ) + 1/2)) % 2 = 0) ∧
    (pyRound (mkRat 1 2) = 0 ∧ pyRound (mkRat 3 2) = 2 ∧ pyRound (mkRat 5 2) = 2) ∧
    (∀ c y, move_to c (mkRat 5 2) y = move_to c 2 y) ∧
    (∀ c, set_width c (mkRat 5 2) = set_width c 2) ∧
    (round_rect defaultCtx 0 0 10 10 [mkRat 5 2] = round_rect defaultCtx 0 0 10 10 [2]) := by
  have hhalf : ∀ k : ℤ, pyRound ((k : ℚ) + 1/2) = if k % 2 = 0 then k else k + 1 := by
    intro k
    have hfr : Int.fract ((k : ℚ) + 1/2) = 1/2 := by
      rw [Int.fract_int_add]
      exact Int.fract_eq_self.mpr ⟨by norm_num, by norm_num⟩
    have hzero : ⌊(1/2 : ℚ)⌋ = 0 := by
      rw [Int.floor_eq_zero_iff]
      constructor <;> norm_num
    have hfl : ⌊(k : ℚ) + 1/2⌋ = k := by
      rw [Int.floor_int_add, hzero, add_zero]
    rw [pyRound_fract, hfr, hfl]
    norm_num
  refine ⟨hhalf, fun k => ?_, by decide, fun c y => ?_, fun c => ?_, by decide⟩
  · rw [hhalf k]
    by_cases hk : k % 2 = 0
    · rw [if_pos hk]
      exact hk
    · rw [if_neg hk]
      omega
  · have h : pyRound (mkRat 5 2) = pyRound 2 := by decide
    unfold move_to
    rw [h]
  · have h : pyRound (mkRat 5 2) = pyRound 2 := by decide
    unfold set_width
    rw [h]

/-- C10 (confirmed): the change suppression of `fill_style` and
`stroke_style` is structural (dataclass `__eq__` compares the concrete
class and every field), not identity-based: assigning a gradient that is
field-wise equal to the cached one — however it was constructed —
dispatches no frame and leaves the state unchanged. -/
theorem c10_structural_style_eq (pf : ℚ → List Nat) (c : Ctx) (g1 g2 : Gradient)
    (hfe : Gradient.fieldsEq g1 g2) :
    (c.fill_style = .grad g1 → set_fill_style pf c (.grad g2) = .ok (c, [])) ∧
    (c.stroke_style = .grad g1 → set_stroke_style pf c (.grad g2) = .ok (c, [])) := by
  obtain rfl := fieldsEq_eq hfe
  constructor
  · intro hc
    unfold set_fill_style
    rw [hc, if_pos rfl]
  · intro hc
    unfold set_stroke_style
    rw [hc, if_pos rfl]

theorem c10_structural_style_eq_witness :
    set_fill_style pfZero
      { defaultCtx with
        fill_style := Style.grad (Gradient.linear [(0, "red"), (1, "blue")] 0 0 100 100) }
      (Style.grad (Gradient.linear [(0, "red"), (1, "blue")] 0 0 100 100)) =
    .ok ({ defaultCtx with
        fill_style := Style.grad (Gradient.linear [(0, "red"), (1, "blue")] 0 0 100 100) },
      []) :=
  (c10_structural_style_eq pfZero
    { defaultCtx with
      fill_style := Style.grad (Gradient.linear [(0, "red"), (1, "blue")] 0 0 100 100) }
    (Gradient.linear [(0, "red"), (1, "blue")] 0 0 100 100)
    (Gradient.linear [(0, "red"), (1, "blue")] 0 0 100 100)
    ⟨rfl, rfl, rfl, rfl, rfl⟩).1 rfl
